import Mathlib

/-!
# Verification of the payment settlement core

A shallow embedding of the payment/order modules of the
E-commerce-Ordering-Payment-System repository, together with proofs about
the settlement state machine, the inventory adjustment algorithm, the
refund operation, and order creation / status update.

The relational store is modelled as an explicit state (`DB`) holding the
product, order and payment rows.  Every service method becomes a pure
function from the state (plus the data the remote provider would return)
to a new state paired with an optional error; a `prisma.$transaction`
whose body throws commits nothing, so an erroring operation returns the
input state unchanged.  Remote-provider calls (`strategy.initiatePayment`,
`strategy.verifyPayment`, `strategy.refundPayment`) are side-effect free
with respect to the local store, so their results are passed in as
parameters; where a claim is about whether the provider was contacted at
all, the operation additionally reports a `providerContacted` flag.
-/

namespace Shop

/-- Order status enum (Prisma `OrderStatus`). -/
inductive OrderStatus where
  | PENDING
  | PAID
  | CANCELED
deriving Repr, DecidableEq

/-- Payment status enum (Prisma `PaymentStatus`). -/
inductive PaymentStatus where
  | PENDING
  | SUCCESS
  | FAILED
deriving Repr, DecidableEq

/-- Payment provider enum (Prisma `PaymentProvider`). -/
inductive Provider where
  | STRIPE
  | BKASH
deriving Repr, DecidableEq

/-- A product row.  Only the fields the settlement core touches are kept:
`stock` and `price` are integers (Prisma `Int` / `Decimal`); `status` is
the catalog status string checked by order creation. -/
structure Product where
  id : String
  name : String
  price : Int
  stock : Int
  status : String
deriving Repr, DecidableEq

/-- An order line item: product reference, quantity and the price/subtotal
snapshots taken at order creation. -/
structure OrderItem where
  productId : String
  quantity : Int
  price : Int
  subtotal : Int
deriving Repr, DecidableEq

/-- An order row with its owned line items (the `items` relation). -/
structure Order where
  id : String
  userId : String
  totalAmount : Int
  status : OrderStatus
  items : List OrderItem
deriving Repr, DecidableEq

/-- The result of `strategy.verifyPayment` (the normalized provider
verification shape). -/
structure Verification where
  verified : Bool
  vstatus : String
  transactionId : Option String
deriving Repr, DecidableEq

/-- The audit record merged into `rawResponse` by the webhook handlers. -/
structure WebhookEventRecord where
  type : String
  amount : Option Int
  wstatus : Option String
  error : Option String
  processedAt : String
deriving Repr, DecidableEq

/-- The `rawResponse` JSON blob of a payment.  The code only ever merges
records with the fixed keys below into it (object spread), so it is
modelled as a record of optional fields; a spread that sets a key
overwrites exactly that field. -/
structure RawResponse where
  clientSecret : Option String
  redirectUrl : Option String
  verificationResult : Option Verification
  verifiedAt : Option String
  webhookEvent : Option WebhookEventRecord
  refundId : Option String
  refundedAt : Option String
  refundAmount : Option Int
deriving Repr, DecidableEq

/-- The empty `rawResponse` blob. -/
def RawResponse.empty : RawResponse :=
  ⟨none, none, none, none, none, none, none, none⟩

/-- A payment row. -/
structure Payment where
  id : String
  orderId : String
  provider : Provider
  transactionId : Option String
  status : PaymentStatus
  rawResponse : RawResponse
deriving Repr, DecidableEq

/-- The relational store: the three tables the settlement core touches. -/
structure DB where
  products : List Product
  orders : List Order
  payments : List Payment
deriving Repr, DecidableEq

/-- Error taxonomy of `src/utils/errors.ts`: `NotFoundError`,
`ValidationError`, `PaymentError`, `InsufficientStockError`. -/
inductive Err where
  | notFound (msg : String)
  | validation (msg : String)
  | payment (msg : String)
  | insufficientStock (msg : String)
deriving Repr, DecidableEq

/-- `prisma.payment.findUnique({ where: { id } })`. -/
def findPayment? (db : DB) (paymentId : String) : Option Payment :=
  db.payments.find? (fun p => p.id == paymentId)

/-- `prisma.payment.findFirst({ where: { transactionId } })`. -/
def findPaymentByTxn? (db : DB) (transactionId : String) : Option Payment :=
  db.payments.find? (fun p => p.transactionId == some transactionId)

/-- `prisma.order.findUnique({ where: { id } })`. -/
def findOrder? (db : DB) (orderId : String) : Option Order :=
  db.orders.find? (fun o => o.id == orderId)

/-- `prisma.product.findUnique({ where: { id } })`. -/
def findProduct? (products : List Product) (productId : String) : Option Product :=
  products.find? (fun p => p.id == productId)

/-- Apply `f` to every row matching `p` (with unique ids this is the row
update `update({ where: ..., data: ... })`). -/
def updateWhere {α : Type} (p : α → Bool) (f : α → α) (l : List α) : List α :=
  l.map (fun a => if p a then f a else a)

/-- `tx.product.update({ where: { id }, data: { stock: { decrement: q } } })`. -/
def decrementStock (products : List Product) (productId : String) (q : Int) :
    List Product :=
  updateWhere (fun p => p.id == productId) (fun p => { p with stock := p.stock - q }) products

/-- `tx.payment.update({ where: { id }, data: ... })` on the store. -/
def setPayment (db : DB) (paymentId : String) (f : Payment → Payment) : DB :=
  { db with payments := updateWhere (fun p => p.id == paymentId) f db.payments }

/-- `tx.order.update({ where: { id }, data: { status } })` on the store. -/
def setOrderStat (db : DB) (orderId : String) (st : OrderStatus) : DB :=
  { db with orders := updateWhere (fun o => o.id == orderId) (fun o => { o with status := st }) db.orders }

/-- The message of the insufficient-stock `PaymentError` thrown inside the
settlement loop (`handlePaymentSuccess` and `reduceStock`). -/
def insufficientMsg (name : String) (avail req : Int) : String :=
  "Insufficient stock for product " ++ name ++ ". Available: " ++
    toString avail ++ ", Required: " ++ toString req

namespace PaymentService

/-- The stock-reduction loop of `handlePaymentSuccess`: for each order
item the product row is re-read from the evolving in-transaction state
(`tx.product.findUnique`), checked for existence and sufficiency, and
decremented.  An error aborts the whole enclosing transaction. -/
def settleStockGo (acc : List Product) : List OrderItem → Except Err (List Product)
  | [] => .ok acc
  | it :: rest =>
    match findProduct? acc it.productId with
    | none => .error (.payment ("Product " ++ it.productId ++ " not found"))
    | some p =>
      if p.stock < it.quantity then
        .error (.payment (insufficientMsg p.name p.stock it.quantity))
      else
        settleStockGo (decrementStock acc it.productId it.quantity) rest

/-- The stock-reduction loop of the private `reduceStock` helper used by
`verifyPayment` for bKash: the existence/sufficiency check reads the
product snapshot included with the order fetch at the start of the
transaction (`item.product`), while the decrement is applied to the
evolving state. -/
def reduceStockGo (snap : List Product) (acc : List Product) :
    List OrderItem → Except Err (List Product)
  | [] => .ok acc
  | it :: rest =>
    match findProduct? snap it.productId with
    | none => .error (.payment ("Product " ++ it.productId ++ " not found"))
    | some p =>
      if p.stock < it.quantity then
        .error (.payment (insufficientMsg p.name p.stock it.quantity))
      else
        reduceStockGo snap (decrementStock acc it.productId it.quantity) rest

/-- `PaymentService.reduceStock(tx, orderId)`: re-fetch the order with its
items and product snapshots, then run the reduction loop. -/
def reduceStock (db : DB) (orderId : String) : Except Err (List Product) :=
  match findOrder? db orderId with
  | none => .error (.payment ("Order " ++ orderId ++ " not found for stock reduction"))
  | some order => reduceStockGo db.products db.products order.items

/-- The `data:` object of the payment update in `verifyPayment`: new
status, refreshed transaction id (falling back to the stored one), and the
verification result merged into the audit blob. -/
def verifyUpdate (payment : Payment) (verification : Verification)
    (txnId now : String) (newStatus : PaymentStatus) : Payment → Payment :=
  fun p =>
    { p with
      status := newStatus
      transactionId := some (verification.transactionId.getD txnId)
      rawResponse := { payment.rawResponse with
        verificationResult := some verification
        verifiedAt := some now } }

/-- The `data:` object of the payment update in `handlePaymentSuccess`. -/
def successUpdate (payment : Payment) (amount : Int) (pstatus now : String) :
    Payment → Payment :=
  fun p =>
    { p with
      status := .SUCCESS
      rawResponse := { payment.rawResponse with
        webhookEvent := some ⟨"payment_intent.succeeded", some amount, some pstatus, none, now⟩ } }

/-- The `data:` object of the payment update in `handlePaymentFailed`. -/
def failedUpdate (payment : Payment) (lastError : Option String) (now : String) :
    Payment → Payment :=
  fun p =>
    { p with
      status := .FAILED
      rawResponse := { payment.rawResponse with
        webhookEvent := some ⟨"payment_intent.payment_failed", none, none, lastError, now⟩ } }

/-- The `data:` object of the payment update in `handlePaymentCanceled`. -/
def canceledUpdate (payment : Payment) (now : String) : Payment → Payment :=
  fun p =>
    { p with
      status := .FAILED
      rawResponse := { payment.rawResponse with
        webhookEvent := some ⟨"payment_intent.canceled", none, none, none, now⟩ } }

/-- The `data:` object of the payment update in `refundPayment`. -/
def refundUpdate (payment : Payment) (refundId : Option String) (now : String)
    (refundAmount : Int) : Payment → Payment :=
  fun p =>
    { p with
      status := .FAILED
      rawResponse := { payment.rawResponse with
        refundId := refundId
        refundedAt := some now
        refundAmount := some refundAmount } }

/-- `PaymentService.verifyPayment(paymentId)`.  The provider verification
result is the `verification` parameter; `now` is the timestamp written
into the audit blob.  Returns the committed state and an optional error
(on error the transaction rolled back, so the state is the input). -/
def verifyPayment (db : DB) (paymentId : String) (verification : Verification)
    (now : String) : DB × Option Err :=
  match findPayment? db paymentId with
  | none => (db, some (.notFound ("Payment " ++ paymentId ++ " not found")))
  | some payment =>
    match payment.transactionId with
    | none => (db, some (.payment "Transaction ID not found"))
    | some txnId =>
      let newStatus := if verification.verified then PaymentStatus.SUCCESS else PaymentStatus.FAILED
      let db1 := setPayment db paymentId (verifyUpdate payment verification txnId now newStatus)
      if verification.verified then
        let db2 := setOrderStat db1 payment.orderId .PAID
        if payment.provider == .BKASH then
          match reduceStock db2 payment.orderId with
          | .error e => (db, some e)
          | .ok ps => ({ db2 with products := ps }, none)
        else
          (db2, none)
      else
        (db1, none)

/-- `PaymentService.handlePaymentSuccess(paymentIntent)` for a
`payment_intent.succeeded` event with external id `txnId`, provider-side
amount `amount` and status string `pstatus`.  A missing payment and an
already-SUCCESS payment are both silent no-ops; otherwise the payment and
order updates and the stock loop run in one transaction. -/
def handlePaymentSuccess (db : DB) (txnId : String) (amount : Int)
    (pstatus : String) (now : String) : DB × Option Err :=
  match findPaymentByTxn? db txnId with
  | none => (db, none)
  | some payment =>
    if payment.status == .SUCCESS then
      (db, none)
    else
      match findOrder? db payment.orderId with
      | none => (db, some (.notFound ("Order " ++ payment.orderId ++ " not found")))
      | some order =>
        let db1 := setPayment db payment.id (successUpdate payment amount pstatus now)
        let db2 := setOrderStat db1 payment.orderId .PAID
        match settleStockGo db2.products order.items with
        | .error e => (db, some e)
        | .ok ps => ({ db2 with products := ps }, none)

/-- `PaymentService.handlePaymentFailed(paymentIntent)`: unconditionally
marks a found payment FAILED and records the event. -/
def handlePaymentFailed (db : DB) (txnId : String) (lastError : Option String)
    (now : String) : DB × Option Err :=
  match findPaymentByTxn? db txnId with
  | none => (db, none)
  | some payment =>
    (setPayment db payment.id (failedUpdate payment lastError now), none)

/-- `PaymentService.handlePaymentCanceled(paymentIntent)`: marks a found
payment FAILED and its order CANCELED in one transaction. -/
def handlePaymentCanceled (db : DB) (txnId : String) (now : String) :
    DB × Option Err :=
  match findPaymentByTxn? db txnId with
  | none => (db, none)
  | some payment =>
    let db1 := setPayment db payment.id (canceledUpdate payment now)
    (setOrderStat db1 payment.orderId .CANCELED, none)

/-- A Stripe webhook event after successful signature verification
(`constructPaymentIntent`), with its payment-intent payload flattened. -/
inductive StripeEvent where
  | succeeded (txnId : String) (amount : Int) (pstatus : String)
  | paymentFailed (txnId : String) (lastError : Option String)
  | canceled (txnId : String)
  | other (eventType : String)
deriving Repr, DecidableEq

/-- The acknowledgment the webhook entry point returns to the provider. -/
structure Ack where
  received : Bool
deriving Repr, DecidableEq

/-- `PaymentService.handleStripeWebhook` after signature verification has
produced `event`: dispatch on the event type and, when the handler does
not throw, return `{ received: true }`.  A thrown error propagates (the
transaction that threw committed nothing). -/
def handleStripeWebhook (db : DB) (event : StripeEvent) (now : String) :
    DB × Except Err Ack :=
  match event with
  | .succeeded txnId amount pstatus =>
    match handlePaymentSuccess db txnId amount pstatus now with
    | (db2, none) => (db2, .ok ⟨true⟩)
    | (db2, some e) => (db2, .error e)
  | .paymentFailed txnId lastError =>
    match handlePaymentFailed db txnId lastError now with
    | (db2, none) => (db2, .ok ⟨true⟩)
    | (db2, some e) => (db2, .error e)
  | .canceled txnId =>
    match handlePaymentCanceled db txnId now with
    | (db2, none) => (db2, .ok ⟨true⟩)
    | (db2, some e) => (db2, .error e)
  | .other _ => (db, .ok ⟨true⟩)

/-- The result of `strategy.refundPayment`. -/
structure RefundResult where
  success : Bool
  refundId : Option String
deriving Repr, DecidableEq

/-- The outcome of an operation that may contact the remote provider:
the committed state (the input state when an error was thrown before any
commit), the optional error, and whether the provider was contacted. -/
structure OpOutcome where
  db : DB
  err : Option Err
  providerContacted : Bool
deriving Repr, DecidableEq

/-- `PaymentService.refundPayment(paymentId, amount)`.  `providerResult`
is what `strategy.refundPayment` would return when reached; the outcome
records whether that call was reached.  `amount || total` is JavaScript
disjunction: an absent or zero amount falls back to the order total. -/
def refundPayment (db : DB) (paymentId : String) (amount : Option Int)
    (providerResult : RefundResult) (now : String) : OpOutcome :=
  match findPayment? db paymentId with
  | none => ⟨db, some (.notFound ("Payment " ++ paymentId ++ " not found")), false⟩
  | some payment =>
    if payment.status != .SUCCESS then
      ⟨db, some (.payment "Can only refund successful payments"), false⟩
    else
      match payment.transactionId with
      | none => ⟨db, some (.payment "Transaction ID not found"), false⟩
      | some _ =>
        if providerResult.success == false then
          ⟨db, some (.payment "Refund processing failed"), true⟩
        else
          match findOrder? db payment.orderId with
          | none => ⟨db, some (.notFound ("Order " ++ payment.orderId ++ " not found")), true⟩
          | some order =>
            ⟨setPayment db paymentId (refundUpdate payment providerResult.refundId now
              (match amount with
               | some a => if a == 0 then order.totalAmount else a
               | none => order.totalAmount)), none, true⟩

/-- The result of `strategy.initiatePayment`. -/
structure InitiateResult where
  success : Bool
  paymentId : Option String
  clientSecret : Option String
  redirectUrl : Option String
  error : Option String
deriving Repr, DecidableEq

/-- `PaymentService.initiatePayment(orderId, provider)`.  `strategyResult`
is what the resolved strategy would return when reached; `newId` is the
database id generated for the created payment row. -/
def initiatePayment (db : DB) (orderId : String) (providerName : String)
    (strategyResult : InitiateResult) (newId : String) : OpOutcome :=
  match findOrder? db orderId with
  | none => ⟨db, some (.notFound ("Order " ++ orderId ++ " not found")), false⟩
  | some order =>
    if (db.payments.filter (fun p => p.orderId == order.id)).length > 0 then
      ⟨db, some (.payment "Payment already initiated for this order"), false⟩
    else
      if strategyResult.success == false then
        ⟨db, some (.payment (strategyResult.error.getD "Payment initiation failed")), true⟩
      else
        ⟨{ db with payments := db.payments ++
            [{ id := newId
               orderId := order.id
               provider := if providerName == "bkash" then .BKASH else .STRIPE
               transactionId := some (strategyResult.paymentId.getD "")
               status := .PENDING
               rawResponse := { RawResponse.empty with
                 clientSecret := strategyResult.clientSecret
                 redirectUrl := strategyResult.redirectUrl } }] }, none, true⟩

end PaymentService

namespace OrderService

/-- An item of a `CreateOrderDTO` (after Zod validation it carries a
product id and a positive integer quantity). -/
structure ItemInput where
  productId : String
  quantity : Int
deriving Repr, DecidableEq

/-- The per-item loop of `createOrder`: look the product up in the bulk
fetch, require it ACTIVE with sufficient stock, and accumulate the item
rows and the total (price snapshots taken from the product). -/
def buildItems (fetched : List Product) : List ItemInput → Except Err (List OrderItem × Int)
  | [] => .ok ([], 0)
  | it :: rest =>
    match findProduct? fetched it.productId with
    | none => .error (.notFound ("Product " ++ it.productId ++ " not found"))
    | some p =>
      if p.status != "ACTIVE" then
        .error (.validation ("Product \"" ++ p.name ++ "\" is not available"))
      else if p.stock < it.quantity then
        .error (.insufficientStock ("Insufficient stock for \"" ++ p.name ++
          "\". Available: " ++ toString p.stock ++ ", Requested: " ++ toString it.quantity))
      else
        match buildItems fetched rest with
        | .error e => .error e
        | .ok (restItems, restTotal) =>
          .ok (⟨it.productId, it.quantity, p.price, p.price * it.quantity⟩ :: restItems,
               p.price * it.quantity + restTotal)

/-- `OrderService.createOrder(userId, data)`: Zod validation (at least one
item, positive integer quantities), bulk product fetch with a count check,
the per-item validation loop, and creation of the order row with its
items.  Stock is never written. -/
def createOrder (db : DB) (userId : String) (items : List ItemInput)
    (newOrderId : String) : DB × Option Err :=
  if items.any (fun it => it.quantity ≤ 0) then
    (db, some (.validation "Quantity must be at least 1"))
  else if items.length == 0 then
    (db, some (.validation "Order must contain at least one item"))
  else
    let productIds := items.map (fun it => it.productId)
    let fetched := db.products.filter (fun p => productIds.contains p.id)
    if fetched.length != productIds.length then
      (db, some (.notFound "One or more products not found"))
    else
      match buildItems fetched items with
      | .error e => (db, some e)
      | .ok (orderItems, total) =>
        ({ db with orders := db.orders ++
            [{ id := newOrderId
               userId := userId
               totalAmount := total
               status := .PENDING
               items := orderItems }] }, none)

/-- The `validTransitions` table of `updateOrderStatus`. -/
def transAllowed : OrderStatus → OrderStatus → Bool
  | .PENDING, .PAID => true
  | .PENDING, .CANCELED => true
  | .PAID, .PENDING => true
  | .PAID, .CANCELED => true
  | _, _ => false

/-- Status names as Prisma renders them into the error message. -/
def statusName : OrderStatus → String
  | .PENDING => "PENDING"
  | .PAID => "PAID"
  | .CANCELED => "CANCELED"

/-- `OrderService.updateOrderStatus(orderId, status)`: fetch the order,
check the transition table, and update or fail with a `ValidationError`
naming the illegal pair. -/
def updateOrderStatus (db : DB) (orderId : String) (st : OrderStatus) :
    DB × Option Err :=
  match findOrder? db orderId with
  | none => (db, some (.notFound ("Order " ++ orderId ++ " not found")))
  | some order =>
    if transAllowed order.status st then
      (setOrderStat db orderId st, none)
    else
      (db, some (.validation ("Cannot transition order from " ++
        statusName order.status ++ " to " ++ statusName st)))

end OrderService

/-! ## Basic lemmas about the store primitives -/

theorem find?_updateWhere {α : Type} (q p : α → Bool) (f : α → α)
    (hq : ∀ a, q (f a) = q a) (l : List α) :
    (updateWhere p f l).find? q = (l.find? q).map (fun a => if p a then f a else a) := by
  induction l with
  | nil => rfl
  | cons a l ih =>
    by_cases hqa : q a = true
    · have hqa2 : q (if p a then f a else a) = true := by
        by_cases hpa : p a = true
        · simp [hpa, hq, hqa]
        · simp [hpa, hqa]
      simp only [updateWhere, List.map_cons]
      rw [List.find?_cons_of_pos _ hqa2, List.find?_cons_of_pos _ hqa]
      rfl
    · have hqa1 : q a = false := by simpa using hqa
      have hqa2 : q (if p a then f a else a) = false := by
        by_cases hpa : p a = true
        · simp [hpa, hq, hqa1]
        · simp [hpa, hqa1]
      simp only [updateWhere, List.map_cons]
      rw [List.find?_cons_of_neg _ (by simp [hqa2]), List.find?_cons_of_neg _ (by simp [hqa1])]
      exact ih

theorem findProduct?_decrementStock (l : List Product) (pid : String) (q : Int)
    (x : String) :
    findProduct? (decrementStock l pid q) x =
      (findProduct? l x).map
        (fun p => if p.id == pid then { p with stock := p.stock - q } else p) := by
  unfold findProduct? decrementStock
  exact find?_updateWhere (fun p => p.id == x) (fun p => p.id == pid)
    (fun p => { p with stock := p.stock - q }) (fun p => rfl) l

theorem findPayment?_setPayment (db : DB) (pid : String) (f : Payment → Payment)
    (hf : ∀ p, (f p).id = p.id) (x : String) :
    findPayment? (setPayment db pid f) x =
      (findPayment? db x).map (fun p => if p.id == pid then f p else p) := by
  unfold findPayment? setPayment
  exact find?_updateWhere _ _ _ (fun p => by simp [hf]) db.payments

theorem findOrder?_setOrderStat (db : DB) (oid : String) (st : OrderStatus)
    (x : String) :
    findOrder? (setOrderStat db oid st) x =
      (findOrder? db x).map
        (fun o => if o.id == oid then { o with status := st } else o) := by
  unfold findOrder? setOrderStat
  exact find?_updateWhere (fun o => o.id == x) (fun o => o.id == oid)
    (fun o => { o with status := st }) (fun o => rfl) db.orders

theorem findPayment?_id {db : DB} {x : String} {p : Payment}
    (h : findPayment? db x = some p) : p.id = x := by
  have := List.find?_some h
  simpa using this

theorem findOrder?_id {db : DB} {x : String} {o : Order}
    (h : findOrder? db x = some o) : o.id = x := by
  have := List.find?_some h
  simpa using this

theorem findProduct?_id {l : List Product} {x : String} {p : Product}
    (h : findProduct? l x = some p) : p.id = x := by
  have := List.find?_some h
  simpa using this

theorem findPaymentByTxn?_txn {db : DB} {t : String} {p : Payment}
    (h : findPaymentByTxn? db t = some p) : p.transactionId = some t := by
  have := List.find?_some h
  simpa using this

theorem products_setPayment (db : DB) (pid : String) (f : Payment → Payment) :
    (setPayment db pid f).products = db.products := rfl

theorem orders_setPayment (db : DB) (pid : String) (f : Payment → Payment) :
    (setPayment db pid f).orders = db.orders := rfl

theorem products_setOrderStat (db : DB) (oid : String) (st : OrderStatus) :
    (setOrderStat db oid st).products = db.products := rfl

theorem payments_setOrderStat (db : DB) (oid : String) (st : OrderStatus) :
    (setOrderStat db oid st).payments = db.payments := rfl

theorem findOrder?_setPayment (db : DB) (pid : String) (f : Payment → Payment)
    (x : String) : findOrder? (setPayment db pid f) x = findOrder? db x := rfl

theorem findPayment?_setOrderStat (db : DB) (oid : String) (st : OrderStatus)
    (x : String) : findPayment? (setOrderStat db oid st) x = findPayment? db x := rfl

theorem findPayment?_withProducts (db : DB) (ps : List Product) (x : String) :
    findPayment? { db with products := ps } x = findPayment? db x := rfl

theorem findOrder?_withProducts (db : DB) (ps : List Product) (x : String) :
    findOrder? { db with products := ps } x = findOrder? db x := rfl

/-- Updating a payment row by its own id with an id-preserving `f` makes a
subsequent lookup report the updated status. -/
theorem statusMap_setPayment (db : DB) (payment : Payment) (f : Payment → Payment)
    (h : findPayment? db payment.id = some payment) (hf : ∀ p, (f p).id = p.id) :
    (findPayment? (setPayment db payment.id f) payment.id).map (fun p => p.status) =
      some (f payment).status := by
  rw [findPayment?_setPayment db payment.id f hf payment.id, h]
  have hc : (payment.id == payment.id) = true := by simp
  show some (if (payment.id == payment.id) = true then f payment else payment).status =
    some (f payment).status
  rw [if_pos hc]

/-- Updating an order row's status makes a subsequent lookup by the same
id report the new status. -/
theorem statusMap_setOrderStat (db : DB) (oid : String) (order : Order) (st : OrderStatus)
    (h : findOrder? db oid = some order) :
    (findOrder? (setOrderStat db oid st) oid).map (fun o => o.status) = some st := by
  rw [findOrder?_setOrderStat db oid st oid, h]
  have hc : (order.id == oid) = true := by simp [findOrder?_id h]
  show some (if (order.id == oid) = true then { order with status := st } else order).status =
    some st
  rw [if_pos hc]

/-! ## Lemmas about the stock-reduction loops -/

/-- If every item's product is present, all quantities are non-negative,
and some item's product has insufficient stock, then the
`handlePaymentSuccess` stock loop fails with an insufficient-stock
`PaymentError` naming a product together with an available quantity that
is indeed below the required one. -/
theorem settleStockGo_insufficient (items : List OrderItem) :
    ∀ acc : List Product,
    (∀ it ∈ items, (findProduct? acc it.productId).isSome) →
    (∀ it ∈ items, 0 ≤ it.quantity) →
    (∃ it ∈ items, ∃ p, findProduct? acc it.productId = some p ∧ p.stock < it.quantity) →
    ∃ name avail req, avail < req ∧
      PaymentService.settleStockGo acc items =
        .error (.payment (insufficientMsg name avail req)) := by
  induction items with
  | nil =>
    intro acc _ _ hbad
    obtain ⟨it, hmem, _⟩ := hbad
    simp at hmem
  | cons it rest ih =>
    intro acc hex hqty hbad
    obtain ⟨p, hp⟩ := Option.isSome_iff_exists.mp (hex it (by simp))
    by_cases hlt : p.stock < it.quantity
    · refine ⟨p.name, p.stock, it.quantity, hlt, ?_⟩
      unfold PaymentService.settleStockGo
      rw [hp]
      simp [hlt]
    · obtain ⟨it0, hmem0, p0, hp0, hbad0⟩ := hbad
      have hmem0r : it0 ∈ rest := by
        rcases List.mem_cons.mp hmem0 with h | h
        · subst h
          rw [hp] at hp0
          injection hp0 with h2
          subst h2
          exact absurd hbad0 hlt
        · exact h
      have hchar : ∀ x, findProduct? (decrementStock acc it.productId it.quantity) x =
          (findProduct? acc x).map
            (fun p2 => if p2.id == it.productId then
              { p2 with stock := p2.stock - it.quantity } else p2) :=
        fun x => findProduct?_decrementStock acc it.productId it.quantity x
      have hex1 : ∀ it1 ∈ rest,
          (findProduct? (decrementStock acc it.productId it.quantity) it1.productId).isSome := by
        intro it1 h1
        rw [hchar]
        have h2 := hex it1 (by simp [h1])
        cases hfp : findProduct? acc it1.productId with
        | none => rw [hfp] at h2; simp at h2
        | some p1 => simp
      have hqty1 : ∀ it1 ∈ rest, 0 ≤ it1.quantity := fun it1 h1 => hqty it1 (by simp [h1])
      have hbad1 : ∃ it1 ∈ rest, ∃ p1,
          findProduct? (decrementStock acc it.productId it.quantity) it1.productId = some p1 ∧
            p1.stock < it1.quantity := by
        refine ⟨it0, hmem0r, ?_⟩
        rw [hchar, hp0]
        have hq0 : 0 ≤ it.quantity := hqty it (by simp)
        by_cases hid : (p0.id == it.productId) = true
        · refine ⟨{ p0 with stock := p0.stock - it.quantity },
            congrArg some (if_pos hid), ?_⟩
          show p0.stock - it.quantity < it0.quantity
          omega
        · exact ⟨p0, congrArg some (if_neg hid), hbad0⟩
      obtain ⟨name, avail, req, hlt2, heq⟩ := ih _ hex1 hqty1 hbad1
      refine ⟨name, avail, req, hlt2, ?_⟩
      unfold PaymentService.settleStockGo
      rw [hp]
      simpa [hlt] using heq

/-- Success run of the `handlePaymentSuccess` stock loop when the order has
pairwise distinct products all held in sufficient stock: it succeeds, every
ordered product ends decremented by its item quantity, and every other
product is untouched. -/
theorem settleStockGo_ok (items : List OrderItem) :
    ∀ acc : List Product,
    (items.map (fun it => it.productId)).Nodup →
    (∀ it ∈ items, ∃ p, findProduct? acc it.productId = some p ∧ it.quantity ≤ p.stock) →
    ∃ acc2, PaymentService.settleStockGo acc items = .ok acc2 ∧
      (∀ x, (∀ it ∈ items, it.productId ≠ x) → findProduct? acc2 x = findProduct? acc x) ∧
      (∀ it ∈ items, findProduct? acc2 it.productId =
        (findProduct? acc it.productId).map
          (fun p => { p with stock := p.stock - it.quantity })) := by
  induction items with
  | nil =>
    intro acc _ _
    exact ⟨acc, rfl, fun x _ => rfl, by simp⟩
  | cons it rest ih =>
    intro acc hnd hsuff
    obtain ⟨p, hp, hqs⟩ := hsuff it (by simp)
    have hlt : ¬ p.stock < it.quantity := by omega
    have hpair : (∀ x ∈ rest, ¬ x.productId = it.productId) ∧
        (rest.map (fun it1 => it1.productId)).Nodup := by simpa using hnd
    have hner : ∀ it1 ∈ rest, it1.productId ≠ it.productId :=
      fun it1 h1 => hpair.1 it1 h1
    have hndr := hpair.2
    have hchar : ∀ x, findProduct? (decrementStock acc it.productId it.quantity) x =
        (findProduct? acc x).map
          (fun p2 => if p2.id == it.productId then
            { p2 with stock := p2.stock - it.quantity } else p2) :=
      fun x => findProduct?_decrementStock acc it.productId it.quantity x
    have hchar_ne : ∀ x, x ≠ it.productId →
        findProduct? (decrementStock acc it.productId it.quantity) x = findProduct? acc x := by
      intro x hx
      rw [hchar]
      cases hfp : findProduct? acc x with
      | none => rfl
      | some p2 =>
        have hid : ¬ ((p2.id == it.productId) = true) := by
          rw [findProduct?_id hfp]
          simpa using hx
        exact congrArg some (if_neg hid)
    have hsuff1 : ∀ it1 ∈ rest, ∃ p1,
        findProduct? (decrementStock acc it.productId it.quantity) it1.productId = some p1 ∧
          it1.quantity ≤ p1.stock := by
      intro it1 h1
      obtain ⟨p1, hp1, hq1⟩ := hsuff it1 (by simp [h1])
      exact ⟨p1, by rw [hchar_ne _ (hner it1 h1)]; exact hp1, hq1⟩
    obtain ⟨acc2, hrun, huntouched, hdec⟩ := ih _ hndr hsuff1
    refine ⟨acc2, ?_, ?_, ?_⟩
    · unfold PaymentService.settleStockGo
      rw [hp]
      simpa [hlt] using hrun
    · intro x hx
      have hxne : x ≠ it.productId := fun h => (hx it (by simp)) h.symm
      rw [huntouched x (fun it1 h1 => hx it1 (by simp [h1])), hchar_ne _ hxne]
    · intro it1 h1
      rcases List.mem_cons.mp h1 with h | h
      · subst h
        rw [huntouched it1.productId (fun it2 h2 => hner it2 h2), hchar, hp]
        have hid : (p.id == it1.productId) = true := by
          simp [findProduct?_id hp]
        exact congrArg some (if_pos hid)
      · rw [hdec it1 h, hchar_ne _ (hner it1 h)]

/-- Success run of the `reduceStock` loop (used by bKash verification):
the existence/sufficiency checks read the snapshot, the decrements apply
to the evolving state; with pairwise distinct, sufficiently stocked
products it succeeds and decrements exactly the ordered products. -/
theorem reduceStockGo_ok (items : List OrderItem) :
    ∀ snap acc : List Product,
    (items.map (fun it => it.productId)).Nodup →
    (∀ it ∈ items, ∃ p, findProduct? snap it.productId = some p ∧ it.quantity ≤ p.stock) →
    ∃ acc2, PaymentService.reduceStockGo snap acc items = .ok acc2 ∧
      (∀ x, (∀ it ∈ items, it.productId ≠ x) → findProduct? acc2 x = findProduct? acc x) ∧
      (∀ it ∈ items, findProduct? acc2 it.productId =
        (findProduct? acc it.productId).map
          (fun p => { p with stock := p.stock - it.quantity })) := by
  induction items with
  | nil =>
    intro snap acc _ _
    exact ⟨acc, rfl, fun x _ => rfl, by simp⟩
  | cons it rest ih =>
    intro snap acc hnd hsuff
    obtain ⟨p, hp, hqs⟩ := hsuff it (by simp)
    have hlt : ¬ p.stock < it.quantity := by omega
    have hpair : (∀ x ∈ rest, ¬ x.productId = it.productId) ∧
        (rest.map (fun it1 => it1.productId)).Nodup := by simpa using hnd
    have hner : ∀ it1 ∈ rest, it1.productId ≠ it.productId :=
      fun it1 h1 => hpair.1 it1 h1
    have hndr := hpair.2
    have hchar : ∀ x, findProduct? (decrementStock acc it.productId it.quantity) x =
        (findProduct? acc x).map
          (fun p2 => if p2.id == it.productId then
            { p2 with stock := p2.stock - it.quantity } else p2) :=
      fun x => findProduct?_decrementStock acc it.productId it.quantity x
    have hchar_ne : ∀ x, x ≠ it.productId →
        findProduct? (decrementStock acc it.productId it.quantity) x = findProduct? acc x := by
      intro x hx
      rw [hchar]
      cases hfp : findProduct? acc x with
      | none => rfl
      | some p2 =>
        have hid : ¬ ((p2.id == it.productId) = true) := by
          rw [findProduct?_id hfp]
          simpa using hx
        exact congrArg some (if_neg hid)
    have hsuff1 : ∀ it1 ∈ rest, ∃ p1,
        findProduct? snap it1.productId = some p1 ∧ it1.quantity ≤ p1.stock :=
      fun it1 h1 => hsuff it1 (by simp [h1])
    obtain ⟨acc2, hrun, huntouched, hdec⟩ :=
      ih snap (decrementStock acc it.productId it.quantity) hndr hsuff1
    refine ⟨acc2, ?_, ?_, ?_⟩
    · unfold PaymentService.reduceStockGo
      rw [hp]
      simpa [hlt] using hrun
    · intro x hx
      have hxne : x ≠ it.productId := fun h => (hx it (by simp)) h.symm
      rw [huntouched x (fun it1 h1 => hx it1 (by simp [h1])), hchar_ne _ hxne]
    · intro it1 h1
      rcases List.mem_cons.mp h1 with h | h
      · subst h
        rw [huntouched it1.productId (fun it2 h2 => hner it2 h2), hchar]
        cases hfp : findProduct? acc it1.productId with
        | none => rfl
        | some p2 =>
          have hid : (p2.id == it1.productId) = true := by
            simp [findProduct?_id hfp]
          exact congrArg some (if_pos hid)
      · rw [hdec it1 h, hchar_ne _ (hner it1 h)]

/-! ## Lemmas about order creation -/

/-- A successful run of the `createOrder` item loop certifies, for every
requested item, an existing ACTIVE product with sufficient stock. -/
theorem buildItems_ok_valid (fetched : List Product) (items : List OrderService.ItemInput) :
    ∀ res, OrderService.buildItems fetched items = .ok res →
    ∀ it ∈ items, ∃ p, findProduct? fetched it.productId = some p ∧
      p.status = "ACTIVE" ∧ it.quantity ≤ p.stock := by
  induction items with
  | nil =>
    intro res _ it hmem
    simp at hmem
  | cons it0 rest ih =>
    intro res hok it hmem
    unfold OrderService.buildItems at hok
    split at hok
    · exact absurd hok (by simp)
    · rename_i p0 hfp
      split at hok
      · exact absurd hok (by simp)
      · rename_i hact
        split at hok
        · exact absurd hok (by simp)
        · rename_i hstk
          have hact2 : p0.status = "ACTIVE" := by
            simpa using hact
          rcases List.mem_cons.mp hmem with h | h
          · subst h
            exact ⟨p0, hfp, hact2, by omega⟩
          · split at hok
            · exact absurd hok (by simp)
            · rename_i res2 restItems restTotal hrest
              exact ih _ hrest it h

/-- Looking a product up in the bulk fetch of `createOrder` (the filter of
the store by the requested ids) agrees with looking it up in the store,
for any requested id. -/
theorem findProduct?_filter (l : List Product) (pids : List String) (x : String)
    (hx : pids.contains x = true) :
    findProduct? (l.filter (fun p => pids.contains p.id)) x = findProduct? l x := by
  induction l with
  | nil => rfl
  | cons a l ih =>
    by_cases hax : (a.id == x) = true
    · have haid : a.id = x := by simpa using hax
      have hkeep : pids.contains a.id = true := by rw [haid]; exact hx
      unfold findProduct?
      rw [List.filter_cons_of_pos (by simpa using hkeep)]
      rw [List.find?_cons_of_pos (p := fun p : Product => p.id == x) _ hax,
        List.find?_cons_of_pos (p := fun p : Product => p.id == x) _ hax]
    · by_cases hkeep : (pids.contains a.id) = true
      · unfold findProduct? at ih ⊢
        rw [List.filter_cons_of_pos (by simpa using hkeep)]
        rw [List.find?_cons_of_neg (p := fun p : Product => p.id == x) _ (by simpa using hax),
          List.find?_cons_of_neg (p := fun p : Product => p.id == x) _ (by simpa using hax)]
        exact ih
      · unfold findProduct? at ih ⊢
        rw [List.filter_cons_of_neg (by simpa using hkeep)]
        rw [List.find?_cons_of_neg (p := fun p : Product => p.id == x) _ (by simpa using hax)]
        exact ih

/-! ## Sample rows used by the concrete theorems -/

namespace Sample

/-- A product with ten units in stock. -/
def widget : Product := ⟨"p1", "Widget", 5, 10, "ACTIVE"⟩

/-- An order for three widgets, still pending. -/
def order1 : Order := ⟨"o1", "u1", 15, .PENDING, [⟨"p1", 3, 5, 15⟩]⟩

/-- The same order already paid. -/
def order1Paid : Order := ⟨"o1", "u1", 15, .PAID, [⟨"p1", 3, 5, 15⟩]⟩

/-- A pending Stripe payment for `order1`. -/
def payStripe : Payment := ⟨"pay1", "o1", .STRIPE, some "tx1", .PENDING, RawResponse.empty⟩

/-- A pending bKash payment for `order1`. -/
def payBkash : Payment := ⟨"pay1", "o1", .BKASH, some "tx1", .PENDING, RawResponse.empty⟩

/-- A successful Stripe payment for `order1`. -/
def paySuccess : Payment := ⟨"pay1", "o1", .STRIPE, some "tx1", .SUCCESS, RawResponse.empty⟩

/-- Store: pending Stripe payment, pending order, ten widgets. -/
def dbStripe : DB := ⟨[widget], [order1], [payStripe]⟩

/-- Store: pending bKash payment, pending order, ten widgets. -/
def dbBkash : DB := ⟨[widget], [order1], [payBkash]⟩

/-- Store: payment already settled SUCCESS, order PAID. -/
def dbSettled : DB := ⟨[widget], [order1Paid], [paySuccess]⟩

/-- Store where only two widgets are left (the order needs three). -/
def dbLowStock : DB := ⟨[⟨"p1", "Widget", 5, 2, "ACTIVE"⟩], [order1], [payStripe]⟩

/-- A provider verification result reporting success. -/
def verifiedTrue : Verification := ⟨true, "Completed", none⟩

/-- A provider verification result reporting failure. -/
def verifiedFalse : Verification := ⟨false, "Failed", none⟩

end Sample

/-! ## Claim theorems -/

/-- C5: a webhook success notification whose external transaction id
matches no Payment record performs no mutation of any Payment, Order or
Product state, and the webhook entry point still returns the accepted
acknowledgment with received = true instead of an error. -/
theorem c5_unknown_transaction_noop (db : DB) (txnId : String) (amount : Int)
    (pstatus now : String) (h : findPaymentByTxn? db txnId = none) :
    PaymentService.handleStripeWebhook db (.succeeded txnId amount pstatus) now =
      (db, .ok ⟨true⟩) := by
  simp only [PaymentService.handleStripeWebhook, PaymentService.handlePaymentSuccess, h]

/-- Witness for C5 on a concrete store holding an unrelated payment. -/
theorem c5_unknown_transaction_noop_witness :
    PaymentService.handleStripeWebhook Sample.dbStripe (.succeeded "zz" 1 "s") "t" =
      (Sample.dbStripe, .ok ⟨true⟩) :=
  c5_unknown_transaction_noop Sample.dbStripe "zz" 1 "s" "t" (by decide)

/-- C6: a refund attempted on a payment in PENDING or FAILED status fails
with the refund-precondition error before the remote provider's refund
operation is contacted, and the store is unchanged. -/
theorem c6_refund_precondition (db : DB) (paymentId : String) (amount : Option Int)
    (providerResult : PaymentService.RefundResult) (now : String) (payment : Payment)
    (hpay : findPayment? db paymentId = some payment)
    (hst : payment.status = .PENDING ∨ payment.status = .FAILED) :
    PaymentService.refundPayment db paymentId amount providerResult now =
      ⟨db, some (.payment "Can only refund successful payments"), false⟩ := by
  have hne : (payment.status != PaymentStatus.SUCCESS) = true := by
    rcases hst with h | h <;> rw [h] <;> rfl
  simp only [PaymentService.refundPayment, hpay, hne, if_true]

/-- Witness for C6 on the pending sample payment. -/
theorem c6_refund_precondition_witness :
    PaymentService.refundPayment Sample.dbStripe "pay1" none ⟨true, some "re1"⟩ "t" =
      ⟨Sample.dbStripe, some (.payment "Can only refund successful payments"), false⟩ :=
  c6_refund_precondition Sample.dbStripe "pay1" none ⟨true, some "re1"⟩ "t"
    Sample.payStripe (by decide) (Or.inl (by decide))

/-- C7: refunding a SUCCESS payment with an external transaction id, when
the provider refund succeeds and no amount is given, marks the payment
FAILED, merges refundId, refundedAt and a refundAmount equal to the order
total into its rawResponse blob, and leaves both the orders (hence the
owning order status) and the products untouched. -/
theorem c7_refund_success (db : DB) (paymentId now t : String)
    (providerResult : PaymentService.RefundResult) (payment : Payment) (order : Order)
    (hpay : findPayment? db paymentId = some payment)
    (hst : payment.status = .SUCCESS)
    (htxn : payment.transactionId = some t)
    (hok : providerResult.success = true)
    (hord : findOrder? db payment.orderId = some order) :
    ∃ db2, PaymentService.refundPayment db paymentId none providerResult now =
        ⟨db2, none, true⟩ ∧
      db2.orders = db.orders ∧
      db2.products = db.products ∧
      findPayment? db2 payment.id = some { payment with
        status := .FAILED
        rawResponse := { payment.rawResponse with
          refundId := providerResult.refundId
          refundedAt := some now
          refundAmount := some order.totalAmount } } := by
  have hid : payment.id = paymentId := findPayment?_id hpay
  have h1 : (payment.status != PaymentStatus.SUCCESS) = false := by rw [hst]; rfl
  have h2 : (providerResult.success == false) = false := by rw [hok]; rfl
  refine ⟨setPayment db paymentId
      (PaymentService.refundUpdate payment providerResult.refundId now order.totalAmount),
    ?_, rfl, rfl, ?_⟩
  · simp only [PaymentService.refundPayment, hpay, htxn, h1, h2, hord,
      Bool.false_eq_true, if_false]
  · have hpay2 : findPayment? db payment.id = some payment := by rw [hid]; exact hpay
    have hc : (payment.id == paymentId) = true := by simp [hid]
    rw [findPayment?_setPayment db paymentId
      (PaymentService.refundUpdate payment providerResult.refundId now order.totalAmount)
      (fun p => rfl) payment.id, hpay2]
    exact congrArg some (if_pos hc)

/-- Witness for C7 on the settled sample payment. -/
theorem c7_refund_success_witness :
    ∃ db2, PaymentService.refundPayment Sample.dbSettled "pay1" none ⟨true, some "re1"⟩ "t" =
        ⟨db2, none, true⟩ ∧
      db2.orders = Sample.dbSettled.orders ∧
      db2.products = Sample.dbSettled.products ∧
      findPayment? db2 Sample.paySuccess.id = some { Sample.paySuccess with
        status := .FAILED
        rawResponse := { Sample.paySuccess.rawResponse with
          refundId := some "re1"
          refundedAt := some "t"
          refundAmount := some Sample.order1Paid.totalAmount } } :=
  c7_refund_success Sample.dbSettled "pay1" "t" "tx1" ⟨true, some "re1"⟩
    Sample.paySuccess Sample.order1Paid (by decide) (by decide) (by decide)
    (by decide) (by decide)

/-- C8: initiating a payment for an order that already has a payment
record — of any status — is rejected before the provider is contacted,
and the store (in particular the payments table) is unchanged. -/
theorem c8_initiate_rejected (db : DB) (orderId providerName : String)
    (strategyResult : PaymentService.InitiateResult) (newId : String)
    (order : Order) (q : Payment)
    (hord : findOrder? db orderId = some order)
    (hq : q ∈ db.payments) (hqo : q.orderId = order.id) :
    PaymentService.initiatePayment db orderId providerName strategyResult newId =
      ⟨db, some (.payment "Payment already initiated for this order"), false⟩ := by
  have hmem : q ∈ db.payments.filter (fun p => p.orderId == order.id) :=
    List.mem_filter.mpr ⟨hq, by simp [hqo]⟩
  have hlen : (db.payments.filter (fun p => p.orderId == order.id)).length > 0 :=
    List.length_pos.mpr (List.ne_nil_of_mem hmem)
  simp only [PaymentService.initiatePayment, hord]
  rw [if_pos hlen]

/-- Witness for C8: the sample order already carries a SUCCESS payment. -/
theorem c8_initiate_rejected_witness :
    PaymentService.initiatePayment Sample.dbSettled "o1" "stripe"
        ⟨true, some "tx9", some "cs", none, none⟩ "pay9" =
      ⟨Sample.dbSettled, some (.payment "Payment already initiated for this order"), false⟩ :=
  c8_initiate_rejected Sample.dbSettled "o1" "stripe"
    ⟨true, some "tx9", some "cs", none, none⟩ "pay9" Sample.order1Paid
    Sample.paySuccess (by decide) (by decide) (by decide)

/-- C9: the admin order-status update permits exactly
PENDING to PAID or CANCELED and PAID to PENDING or CANCELED, with nothing
out of CANCELED; an allowed transition commits the new status, any other
pair fails with a validation error naming the current and requested
statuses and leaves the store unchanged. -/
theorem c9_update_order_status (db : DB) (orderId : String) (st : OrderStatus)
    (order : Order) (hord : findOrder? db orderId = some order) :
    (∀ a b, OrderService.transAllowed a b = true ↔
      ((a = .PENDING ∧ (b = .PAID ∨ b = .CANCELED)) ∨
       (a = .PAID ∧ (b = .PENDING ∨ b = .CANCELED)))) ∧
    (OrderService.transAllowed order.status st = true →
      OrderService.updateOrderStatus db orderId st = (setOrderStat db orderId st, none) ∧
      findOrder? (setOrderStat db orderId st) orderId = some { order with status := st }) ∧
    (OrderService.transAllowed order.status st = false →
      OrderService.updateOrderStatus db orderId st =
        (db, some (.validation ("Cannot transition order from " ++
          OrderService.statusName order.status ++ " to " ++ OrderService.statusName st)))) := by
  refine ⟨fun a b => by cases a <;> cases b <;> decide, ?_, ?_⟩
  · intro hall
    constructor
    · simp only [OrderService.updateOrderStatus, hord, hall, if_true]
    · rw [findOrder?_setOrderStat db orderId st orderId, hord]
      have hc : (order.id == orderId) = true := by simp [findOrder?_id hord]
      exact congrArg some (if_pos hc)
  · intro hnall
    simp only [OrderService.updateOrderStatus, hord, hnall, Bool.false_eq_true, if_false]

/-- Witness for C9: the pending sample order moves to PAID, and the
transition table at PENDING/PAID agrees with the enumeration. -/
theorem c9_update_order_status_witness :
    OrderService.updateOrderStatus Sample.dbStripe "o1" .PAID =
      (setOrderStat Sample.dbStripe "o1" .PAID, none) :=
  ((c9_update_order_status Sample.dbStripe "o1" .PAID Sample.order1
    (by decide)).2.1 (by decide)).1

/-- C10: creating an order never writes product stock (or payments):
whatever the outcome, the product and payment tables are unchanged; and a
successful creation certifies that every requested item referenced an
existing ACTIVE product stocked at least at the requested quantity. -/
theorem c10_create_order_frame (db : DB) (userId : String)
    (items : List OrderService.ItemInput) (newOrderId : String) :
    (OrderService.createOrder db userId items newOrderId).1.products = db.products ∧
    (OrderService.createOrder db userId items newOrderId).1.payments = db.payments ∧
    ((OrderService.createOrder db userId items newOrderId).2 = none →
      ∀ it ∈ items, ∃ p, findProduct? db.products it.productId = some p ∧
        p.status = "ACTIVE" ∧ it.quantity ≤ p.stock) := by
  unfold OrderService.createOrder
  split
  · exact ⟨rfl, rfl, fun h => absurd h (by simp)⟩
  · split
    · exact ⟨rfl, rfl, fun h => absurd h (by simp)⟩
    · dsimp only
      split
      · exact ⟨rfl, rfl, fun h => absurd h (by simp)⟩
      · split
        · exact ⟨rfl, rfl, fun h => absurd h (by simp)⟩
        · rename_i orderItems total hbuild
          refine ⟨rfl, rfl, fun _ it hit => ?_⟩
          obtain ⟨p, hp, hact, hstk⟩ := buildItems_ok_valid _ items _ hbuild it hit
          refine ⟨p, ?_, hact, hstk⟩
          rw [← findProduct?_filter db.products (items.map (fun it2 => it2.productId))
            it.productId (by simpa using List.mem_map_of_mem (fun it2 => it2.productId) hit)]
          exact hp

/-- C4: a success notification for an order holding some line item with
insufficient stock fails with the insufficient-stock error (which names a
product together with its available and required quantities), and the
whole transaction rolls back: the returned store is exactly the input
store, so every product's stock — including items processed earlier in
the settlement loop — and the Payment and Order statuses are unchanged. -/
theorem c4_insufficient_stock_rollback (db : DB) (txnId : String) (amount : Int)
    (pstatus now : String) (payment : Payment) (order : Order)
    (hpay : findPaymentByTxn? db txnId = some payment)
    (hst : payment.status ≠ .SUCCESS)
    (hord : findOrder? db payment.orderId = some order)
    (hex : ∀ it ∈ order.items, (findProduct? db.products it.productId).isSome)
    (hqty : ∀ it ∈ order.items, 0 ≤ it.quantity)
    (hbad : ∃ it ∈ order.items, ∃ p, findProduct? db.products it.productId = some p ∧
      p.stock < it.quantity) :
    ∃ name avail req, avail < req ∧
      PaymentService.handlePaymentSuccess db txnId amount pstatus now =
        (db, some (.payment (insufficientMsg name avail req))) := by
  have hbeq : (payment.status == PaymentStatus.SUCCESS) = false := by
    simpa using hst
  obtain ⟨name, avail, req, hlt, hrun⟩ :=
    settleStockGo_insufficient order.items db.products hex hqty hbad
  refine ⟨name, avail, req, hlt, ?_⟩
  simp only [PaymentService.handlePaymentSuccess, hpay, hbeq, Bool.false_eq_true,
    if_false, hord, products_setOrderStat, products_setPayment, hrun]

/-- Witness for C4 on the low-stock sample store (two widgets in stock,
three required). -/
theorem c4_insufficient_stock_rollback_witness :
    ∃ name avail req, avail < req ∧
      PaymentService.handlePaymentSuccess Sample.dbLowStock "tx1" 1500 "succeeded" "t" =
        (Sample.dbLowStock, some (.payment (insufficientMsg name avail req))) :=
  c4_insufficient_stock_rollback Sample.dbLowStock "tx1" 1500 "succeeded" "t"
    Sample.payStripe Sample.order1 (by decide) (by decide) (by decide) (by decide)
    (by decide)
    ⟨⟨"p1", 3, 5, 15⟩, by decide, ⟨"p1", "Widget", 5, 2, "ACTIVE"⟩, by decide, by decide⟩

/-- C1: the code does not deliver at-most-once stock decrement on the
manual verification path.  Evaluation of `verifyPayment` on a pending
bKash payment for one line item of quantity three against ten units of
stock: the first verified=true call decrements stock to seven, and a
duplicate verified=true call decrements it again to four — the settlement
loop runs once per delivery because `verifyPayment`, unlike
`handlePaymentSuccess`, never short-circuits on an already-SUCCESS
payment. -/
theorem c1_duplicate_verify_double_decrements :
    (PaymentService.verifyPayment Sample.dbBkash "pay1" Sample.verifiedTrue "t1").2 = none ∧
    ((PaymentService.verifyPayment Sample.dbBkash "pay1" Sample.verifiedTrue "t1").1.products.map
      (fun p => p.stock)) = [7] ∧
    ((findPayment? (PaymentService.verifyPayment Sample.dbBkash "pay1"
      Sample.verifiedTrue "t1").1 "pay1").map (fun p => p.status) = some .SUCCESS) ∧
    (PaymentService.verifyPayment
      (PaymentService.verifyPayment Sample.dbBkash "pay1" Sample.verifiedTrue "t1").1
      "pay1" Sample.verifiedTrue "t2").2 = none ∧
    ((PaymentService.verifyPayment
      (PaymentService.verifyPayment Sample.dbBkash "pay1" Sample.verifiedTrue "t1").1
      "pay1" Sample.verifiedTrue "t2").1.products.map (fun p => p.stock)) = [4] := by
  decide

/-- C2 counterexample: a payment_failed webhook event delivered after the
payment reached SUCCESS does change Payment.status — it becomes FAILED —
so it is false that every subsequent settlement operation leaves a
SUCCESS payment's status unchanged. -/
theorem c2_counterexample :
    (findPayment? Sample.dbSettled "pay1").map (fun p => p.status) = some .SUCCESS ∧
    (PaymentService.handleStripeWebhook Sample.dbSettled
      (.paymentFailed "tx1" none) "t").2 = .ok ⟨true⟩ ∧
    (findPayment? (PaymentService.handleStripeWebhook Sample.dbSettled
      (.paymentFailed "tx1" none) "t").1 "pay1").map (fun p => p.status) = some .FAILED :=
  ⟨by decide, rfl, by decide⟩

/-- C2 amended: once Payment.status = SUCCESS, a subsequent success
webhook notification is a guarded no-op on the whole store; but
payment_failed and canceled webhook events and manual verification are
not guarded — payment_failed marks the payment FAILED, canceled marks the
payment FAILED and the order CANCELED, and a manual verification whose
provider result is not verified marks the payment FAILED. -/
theorem c2_amended_success_guarded (db : DB) (txnId : String) (amount : Int)
    (pstatus now : String) (lastError : Option String)
    (payment : Payment) (order : Order) (verif : Verification)
    (hbytxn : findPaymentByTxn? db txnId = some payment)
    (hid : findPayment? db payment.id = some payment)
    (hord : findOrder? db payment.orderId = some order)
    (hst : payment.status = .SUCCESS) :
    PaymentService.handleStripeWebhook db (.succeeded txnId amount pstatus) now =
      (db, .ok ⟨true⟩) ∧
    (∃ db2, PaymentService.handleStripeWebhook db (.paymentFailed txnId lastError) now =
        (db2, .ok ⟨true⟩) ∧
      (findPayment? db2 payment.id).map (fun p => p.status) = some .FAILED) ∧
    (∃ db3, PaymentService.handleStripeWebhook db (.canceled txnId) now =
        (db3, .ok ⟨true⟩) ∧
      (findPayment? db3 payment.id).map (fun p => p.status) = some .FAILED ∧
      (findOrder? db3 payment.orderId).map (fun o => o.status) = some .CANCELED) ∧
    (verif.verified = false →
      ∃ db4, PaymentService.verifyPayment db payment.id verif now = (db4, none) ∧
        (findPayment? db4 payment.id).map (fun p => p.status) = some .FAILED) := by
  have hcid : (payment.id == payment.id) = true := by simp
  have hself : ∀ (f : Payment → Payment), (∀ p, (f p).id = p.id) →
      (findPayment? (setPayment db payment.id f) payment.id).map (fun p => p.status) =
        some (f payment).status := by
    intro f hf
    rw [findPayment?_setPayment db payment.id f hf payment.id, hid]
    show some (if (payment.id == payment.id) = true then f payment else payment).status = _
    rw [if_pos hcid]
  refine ⟨?_, ?_, ?_, ?_⟩
  · have hbeq : (payment.status == PaymentStatus.SUCCESS) = true := by
      rw [hst]; rfl
    simp only [PaymentService.handleStripeWebhook, PaymentService.handlePaymentSuccess,
      hbytxn, hbeq, if_true]
  · refine ⟨setPayment db payment.id (PaymentService.failedUpdate payment lastError now),
      ?_, ?_⟩
    · simp only [PaymentService.handleStripeWebhook, PaymentService.handlePaymentFailed,
        hbytxn]
    · exact hself _ (fun p => rfl)
  · refine ⟨setOrderStat (setPayment db payment.id (PaymentService.canceledUpdate payment now))
      payment.orderId .CANCELED, ?_, ?_, ?_⟩
    · simp only [PaymentService.handleStripeWebhook, PaymentService.handlePaymentCanceled,
        hbytxn]
    · rw [findPayment?_setOrderStat]
      exact hself _ (fun p => rfl)
    · rw [findOrder?_setOrderStat, findOrder?_setPayment, hord]
      have hoid : (order.id == payment.orderId) = true := by
        simp [findOrder?_id hord]
      show some (if (order.id == payment.orderId) = true then
        { order with status := OrderStatus.CANCELED } else order).status = _
      rw [if_pos hoid]
  · intro hv
    have htxn : payment.transactionId = some txnId := findPaymentByTxn?_txn hbytxn
    refine ⟨setPayment db payment.id
      (PaymentService.verifyUpdate payment verif txnId now .FAILED), ?_, ?_⟩
    · simp only [PaymentService.verifyPayment, hid, htxn, hv, Bool.false_eq_true,
        if_false]
    · exact hself _ (fun p => rfl)

/-- Witness for C2 on the settled sample store: the duplicate success
event is a no-op and an unverified manual verification flips the payment
to FAILED. -/
theorem c2_amended_success_guarded_witness :
    PaymentService.handleStripeWebhook Sample.dbSettled (.succeeded "tx1" 1500 "s") "t" =
      (Sample.dbSettled, .ok ⟨true⟩) ∧
    (∃ db4, PaymentService.verifyPayment Sample.dbSettled "pay1" Sample.verifiedFalse "t" =
        (db4, none) ∧
      (findPayment? db4 "pay1").map (fun p => p.status) = some .FAILED) := by
  have h := c2_amended_success_guarded Sample.dbSettled "tx1" 1500 "s" "t" none
    Sample.paySuccess Sample.order1Paid Sample.verifiedFalse
    (by decide) (by decide) (by decide) (by decide)
  exact ⟨h.1, h.2.2.2 (by decide)⟩

/-- C3 counterexample: a verified=true synchronous verification of a
PENDING Stripe payment with ample stock sets Payment.status to SUCCESS
and Order.status to PAID but leaves every product's stock untouched —
the claim's "decrements every ordered product's stock" fails for the
verification path with the Stripe provider. -/
theorem c3_counterexample :
    (PaymentService.verifyPayment Sample.dbStripe "pay1" Sample.verifiedTrue "t").2 = none ∧
    ((findPayment? (PaymentService.verifyPayment Sample.dbStripe "pay1"
      Sample.verifiedTrue "t").1 "pay1").map (fun p => p.status) = some .SUCCESS) ∧
    ((findOrder? (PaymentService.verifyPayment Sample.dbStripe "pay1"
      Sample.verifiedTrue "t").1 "o1").map (fun o => o.status) = some .PAID) ∧
    (PaymentService.verifyPayment Sample.dbStripe "pay1" Sample.verifiedTrue "t").1.products =
      Sample.dbStripe.products := by
  decide

/-- C3 amended: for a payment found in PENDING whose order has pairwise
distinct line items all held in sufficient stock, a webhook success event
sets Payment.status to SUCCESS, Order.status to PAID and decrements every
ordered product's stock by its quantity (any provider); the synchronous
verification path with verified=true sets the same statuses but
decrements stock only when the provider is BKASH — for STRIPE it leaves
all stock unchanged (stock is left to the webhook). -/
theorem c3_amended_settlement (db : DB) (txnId : String) (amount : Int)
    (pstatus now : String) (payment : Payment) (order : Order) (verif : Verification)
    (hbytxn : findPaymentByTxn? db txnId = some payment)
    (hid : findPayment? db payment.id = some payment)
    (hst : payment.status = .PENDING)
    (hord : findOrder? db payment.orderId = some order)
    (hnd : (order.items.map (fun it => it.productId)).Nodup)
    (hsuff : ∀ it ∈ order.items, ∃ p, findProduct? db.products it.productId = some p ∧
      it.quantity ≤ p.stock)
    (hverif : verif.verified = true) :
    (∃ db2, PaymentService.handleStripeWebhook db (.succeeded txnId amount pstatus) now =
        (db2, .ok ⟨true⟩) ∧
      (findPayment? db2 payment.id).map (fun p => p.status) = some .SUCCESS ∧
      (findOrder? db2 payment.orderId).map (fun o => o.status) = some .PAID ∧
      (∀ it ∈ order.items, findProduct? db2.products it.productId =
        (findProduct? db.products it.productId).map
          (fun p => { p with stock := p.stock - it.quantity }))) ∧
    (payment.provider = .BKASH →
      ∃ db3, PaymentService.verifyPayment db payment.id verif now = (db3, none) ∧
        (findPayment? db3 payment.id).map (fun p => p.status) = some .SUCCESS ∧
        (findOrder? db3 payment.orderId).map (fun o => o.status) = some .PAID ∧
        (∀ it ∈ order.items, findProduct? db3.products it.productId =
          (findProduct? db.products it.productId).map
            (fun p => { p with stock := p.stock - it.quantity }))) ∧
    (payment.provider = .STRIPE →
      ∃ db4, PaymentService.verifyPayment db payment.id verif now = (db4, none) ∧
        (findPayment? db4 payment.id).map (fun p => p.status) = some .SUCCESS ∧
        (findOrder? db4 payment.orderId).map (fun o => o.status) = some .PAID ∧
        db4.products = db.products) := by
  have htxn : payment.transactionId = some txnId := findPaymentByTxn?_txn hbytxn
  have hbeq : (payment.status == PaymentStatus.SUCCESS) = false := by rw [hst]; rfl
  have hoc : (order.id == payment.orderId) = true := by simp [findOrder?_id hord]
  refine ⟨?_, ?_, ?_⟩
  · obtain ⟨ps, hrun, hunt, hdec⟩ := settleStockGo_ok order.items db.products hnd hsuff
    refine ⟨{ setOrderStat (setPayment db payment.id
        (PaymentService.successUpdate payment amount pstatus now)) payment.orderId .PAID
        with products := ps }, ?_, ?_, ?_, ?_⟩
    · simp only [PaymentService.handleStripeWebhook, PaymentService.handlePaymentSuccess,
        hbytxn, hbeq, Bool.false_eq_true, if_false, hord, products_setOrderStat,
        products_setPayment, hrun]
    · exact statusMap_setPayment db payment
        (PaymentService.successUpdate payment amount pstatus now) hid (fun p => rfl)
    · exact statusMap_setOrderStat (setPayment db payment.id
        (PaymentService.successUpdate payment amount pstatus now)) payment.orderId order
        .PAID hord
    · intro it hit
      exact hdec it hit
  · intro hprov
    have hbk : (payment.provider == Provider.BKASH) = true := by rw [hprov]; rfl
    obtain ⟨ps2, hrun2, hunt2, hdec2⟩ :=
      reduceStockGo_ok order.items db.products db.products hnd hsuff
    have hordv : findOrder? (setOrderStat (setPayment db payment.id
        (PaymentService.verifyUpdate payment verif txnId now PaymentStatus.SUCCESS))
        payment.orderId .PAID) payment.orderId = some { order with status := .PAID } := by
      rw [findOrder?_setOrderStat, findOrder?_setPayment, hord]
      exact congrArg some (if_pos hoc)
    refine ⟨{ setOrderStat (setPayment db payment.id
        (PaymentService.verifyUpdate payment verif txnId now PaymentStatus.SUCCESS))
        payment.orderId .PAID with products := ps2 }, ?_, ?_, ?_, ?_⟩
    · simp only [PaymentService.verifyPayment, PaymentService.reduceStock, hid, htxn,
        hverif, if_true, hbk, hordv, products_setOrderStat, products_setPayment, hrun2]
    · exact statusMap_setPayment db payment
        (PaymentService.verifyUpdate payment verif txnId now PaymentStatus.SUCCESS) hid
        (fun p => rfl)
    · exact statusMap_setOrderStat (setPayment db payment.id
        (PaymentService.verifyUpdate payment verif txnId now PaymentStatus.SUCCESS))
        payment.orderId order .PAID hord
    · intro it hit
      exact hdec2 it hit
  · intro hprov
    have hstp : (payment.provider == Provider.BKASH) = false := by rw [hprov]; rfl
    refine ⟨setOrderStat (setPayment db payment.id
        (PaymentService.verifyUpdate payment verif txnId now PaymentStatus.SUCCESS))
        payment.orderId .PAID, ?_, ?_, ?_, rfl⟩
    · simp only [PaymentService.verifyPayment, hid, htxn, hverif, if_true, hstp,
        Bool.false_eq_true, if_false]
    · exact statusMap_setPayment db payment
        (PaymentService.verifyUpdate payment verif txnId now PaymentStatus.SUCCESS) hid
        (fun p => rfl)
    · exact statusMap_setOrderStat (setPayment db payment.id
        (PaymentService.verifyUpdate payment verif txnId now PaymentStatus.SUCCESS))
        payment.orderId order .PAID hord

/-- Witness for C3 on the sample stores: the bKash verification decrements
stock, the Stripe verification does not. -/
theorem c3_amended_settlement_witness :
    (∃ db3, PaymentService.verifyPayment Sample.dbBkash "pay1" Sample.verifiedTrue "t" =
        (db3, none) ∧
      (findPayment? db3 "pay1").map (fun p => p.status) = some .SUCCESS ∧
      (findOrder? db3 "o1").map (fun o => o.status) = some .PAID ∧
      (∀ it ∈ Sample.order1.items, findProduct? db3.products it.productId =
        (findProduct? Sample.dbBkash.products it.productId).map
          (fun p => { p with stock := p.stock - it.quantity }))) ∧
    (∃ db4, PaymentService.verifyPayment Sample.dbStripe "pay1" Sample.verifiedTrue "t" =
        (db4, none) ∧
      (findPayment? db4 "pay1").map (fun p => p.status) = some .SUCCESS ∧
      (findOrder? db4 "o1").map (fun o => o.status) = some .PAID ∧
      db4.products = Sample.dbStripe.products) := by
  have hsuffB : ∀ it ∈ Sample.order1.items, ∃ p,
      findProduct? Sample.dbBkash.products it.productId = some p ∧
        it.quantity ≤ p.stock := by
    intro it hit
    have h2 : it = (⟨"p1", 3, 5, 15⟩ : OrderItem) := by
      simpa [Sample.order1] using hit
    subst h2
    exact ⟨Sample.widget, by decide, by decide⟩
  have hsuffS : ∀ it ∈ Sample.order1.items, ∃ p,
      findProduct? Sample.dbStripe.products it.productId = some p ∧
        it.quantity ≤ p.stock := by
    intro it hit
    have h2 : it = (⟨"p1", 3, 5, 15⟩ : OrderItem) := by
      simpa [Sample.order1] using hit
    subst h2
    exact ⟨Sample.widget, by decide, by decide⟩
  have hB := c3_amended_settlement Sample.dbBkash "tx1" 0 "s" "t"
    Sample.payBkash Sample.order1 Sample.verifiedTrue
    (by decide) (by decide) (by decide) (by decide) (by decide) hsuffB (by decide)
  have hS := c3_amended_settlement Sample.dbStripe "tx1" 0 "s" "t"
    Sample.payStripe Sample.order1 Sample.verifiedTrue
    (by decide) (by decide) (by decide) (by decide) (by decide) hsuffS (by decide)
  exact ⟨hB.2.1 (by decide), hS.2.2 (by decide)⟩

/-- Witness for C10: a successful creation against the sample store,
with the certified validation facts it yields for its single item. -/
theorem c10_create_order_frame_witness :
    (OrderService.createOrder Sample.dbStripe "u2" [⟨"p1", 2⟩] "o2").1.products =
      Sample.dbStripe.products ∧
    (∃ p, findProduct? Sample.dbStripe.products "p1" = some p ∧
      p.status = "ACTIVE" ∧ (2 : Int) ≤ p.stock) := by
  have h := c10_create_order_frame Sample.dbStripe "u2" [⟨"p1", 2⟩] "o2"
  exact ⟨h.1, h.2.2 (by decide) ⟨"p1", 2⟩ (by decide)⟩

end Shop
